import Mathlib

/-!
Verification development for the BeautiFi IoT measurement-to-evidence
pipeline.  The Python sources are shallowly embedded: byte strings become
`List Nat` (each element a byte value), SHA-256 is an abstract parameter
`H : List Nat → List Nat` (the theorems below are structural and hold for
every hash function), Python `float` arithmetic is modelled exactly over
`ℚ`, and the SQLite-backed buffers become Lean lists holding the rows in
insertion (autoincrement-id) order.
-/

namespace BeautiFi

/-- A byte string: list of byte values. -/
abbrev Bytes := List Nat

/- ============================================================
   Hex encoding (Python `bytes.hex` / `bytes.fromhex`), used by
   `sign_hex` / `verify_signature` and `_generate_device_id`.
   ============================================================ -/

/-- Lower-case hex digit for a nibble, as produced by Python `bytes.hex()`. -/
def toHexChar (n : Nat) : Char :=
  if n < 10 then Char.ofNat (n + 48) else Char.ofNat (n + 87)

/-- Nibble value of a hex digit, as accepted by Python `bytes.fromhex`. -/
def fromHexChar (c : Char) : Option Nat :=
  if 48 ≤ c.toNat ∧ c.toNat ≤ 57 then some (c.toNat - 48)
  else if 97 ≤ c.toNat ∧ c.toNat ≤ 102 then some (c.toNat - 87)
  else if 65 ≤ c.toNat ∧ c.toNat ≤ 70 then some (c.toNat - 55)
  else none

/-- `bytes.hex()`: two lower-case hex digits per byte. -/
def hexEncode : Bytes → List Char
  | [] => []
  | b :: rest => toHexChar (b / 16) :: toHexChar (b % 16) :: hexEncode rest

/-- `bytes.fromhex`: `none` models the `ValueError` raised on non-hex or
odd-length input. -/
def hexDecode : List Char → Option Bytes
  | [] => some []
  | [_] => none
  | c1 :: c2 :: rest =>
    match fromHexChar c1, fromHexChar c2, hexDecode rest with
    | some hi, some lo, some r => some ((hi * 16 + lo) :: r)
    | _, _, _ => none

theorem fromHexChar_toHexChar (n : Nat) (h : n < 16) :
    fromHexChar (toHexChar n) = some n := by
  interval_cases n <;> decide

theorem hexDecode_hexEncode (l : Bytes) (h : ∀ b ∈ l, b < 256) :
    hexDecode (hexEncode l) = some l := by
  induction l with
  | nil => rfl
  | cons b rest ih =>
    have hb : b < 256 := h b (List.mem_cons_self _ _)
    have hhi : b / 16 < 16 := by omega
    have hlo : b % 16 < 16 := Nat.mod_lt _ (by omega)
    have hrest := ih (fun x hx => h x (List.mem_cons_of_mem _ hx))
    have hb2 : b / 16 * 16 + b % 16 = b := by omega
    simp [hexEncode, hexDecode, fromHexChar_toHexChar _ hhi,
      fromHexChar_toHexChar _ hlo, hrest, hb2]

/- ============================================================
   Merkle tree (crypto/signing.py, create_merkle_root)
   ============================================================ -/

/-- One pass of the `for i in range(0, len(current_level), 2)` loop body:
pair adjacent nodes left to right, duplicating the last node of an
odd-length level, and hash each concatenation. -/
def pairLevel (H : Bytes → Bytes) : List Bytes → List Bytes
  | [] => []
  | [x] => [H (x ++ x)]
  | x :: y :: rest => H (x ++ y) :: pairLevel H rest

theorem pairLevel_length (H : Bytes → Bytes) (l : List Bytes) :
    (pairLevel H l).length = (l.length + 1) / 2 := by
  induction l using pairLevel.induct H with
  | case1 => simp [pairLevel]
  | case2 x => simp [pairLevel]
  | case3 x y rest ih => simp [pairLevel, ih]; omega

/-- The `while len(current_level) > 1` loop of `create_merkle_root`.
(The `[]` case is unreachable from `create_merkle_root`, which only calls
this on a non-empty level; it is given the empty-input root to stay total.) -/
def buildTree (H : Bytes → Bytes) : List Bytes → Bytes
  | [] => H []
  | [x] => x
  | x :: y :: rest => buildTree H (pairLevel H (x :: y :: rest))
termination_by l => l.length
decreasing_by
  simp only [pairLevel_length]
  simp
  omega

/-- `create_merkle_root(items)`: returns the root digest and the level-0
leaf digests (the code returns both hex-encoded; hex encoding is injective,
so we state everything on the digests). Empty input returns `H ""`. -/
def create_merkle_root (H : Bytes → Bytes) (items : List Bytes) :
    Bytes × List Bytes :=
  if items = [] then (H [], [])
  else
    let leaves := items.map H
    (buildTree H leaves, leaves)

/-- **C2** For every hash function and leaf byte-strings, the Merkle root is
built by hashing each item to a level-0 leaf `L_i = H(item_i)`, pairing
adjacent nodes left-to-right with duplication of an odd last node, and
hashing concatenations until one node remains: the empty list yields
`H("")`; four items yield `H(H(L0‖L1) ‖ H(L2‖L3))`; three items yield
`H(H(L0‖L1) ‖ H(L2‖L2))`. -/
theorem merkle_root_spec (H : Bytes → Bytes) (a b c d : Bytes) :
    (create_merkle_root H []).1 = H []
    ∧ (create_merkle_root H [a, b, c, d]).1 =
        H (H (H a ++ H b) ++ H (H c ++ H d))
    ∧ (create_merkle_root H [a, b, c]).1 =
        H (H (H a ++ H b) ++ H (H c ++ H c)) := by
  refine ⟨rfl, ?_, ?_⟩
  · show buildTree H [H a, H b, H c, H d] = _
    rw [buildTree, pairLevel, pairLevel, pairLevel, buildTree, pairLevel,
      pairLevel, buildTree]
  · show buildTree H [H a, H b, H c] = _
    rw [buildTree, pairLevel, pairLevel, buildTree, pairLevel, pairLevel,
      buildTree]

/- ============================================================
   Payload signing (crypto/signing.py, sign_payload / verify_signature)

   A payload dict is split into its non-signing content (abstract type
   `γ`, since the claims never inspect individual keys) and the optional
   `_signing` block.  `canon : γ → Bytes` embeds `canonicalize_json` on
   the stripped dict; `H` embeds SHA-256.  The recorded `payload_hash`
   is stored as the digest itself (the code stores its hex form; hex
   encoding is injective so the comparison is the same).  The recorded
   `signature` is stored exactly as the code does: the character string
   `"ed25519:" ++ hex(sig)`, so that malformed/non-hex signatures are
   representable.
   ============================================================ -/

/-- The `_signing` block attached by `sign_payload`.  `payload_hash` and
`signature` are `Option`s because `verify_signature` reads them with
`.get(...)`, which tolerates absent keys. -/
structure SigningInfo where
  deviceId : String
  publicKey : String
  timestamp : String
  payload_hash : Option Bytes
  signatureStr : Option (List Char)
deriving DecidableEq, Repr

/-- A payload dict: non-`_signing` content plus optional `_signing` block. -/
structure SignedPayload (γ : Type) where
  content : γ
  signing : Option SigningInfo

/-- Device identity (crypto/identity.py): Ed25519 keypair held abstractly
as total `sign`/`verify` functions (`DeviceIdentity.verify` catches the
`InvalidSignature` exception and returns a `bool`, so it is total). -/
structure DeviceIdentity where
  deviceId : String
  public_key_hex : String
  sign : Bytes → Bytes
  verify : Bytes → Bytes → Bool

/-- `signature_str.startswith('ed25519:')` stripping in `verify_signature`. -/
def stripSigTag (s : List Char) : List Char :=
  if s.take 8 = ("ed25519:".toList) then s.drop 8 else s

/-- `sign_payload(payload, identity)`: strip any `_signing` keys, add the
signing timestamp (`addTs` embeds the `include_timestamp` insertion into
the content; `verify_signature` recomputes over the same stored content,
so its exact behaviour is irrelevant to the round trip), canonicalize,
hash, sign the digest, and attach the `_signing` block. -/
def sign_payload {γ : Type} (canon : γ → Bytes) (H : Bytes → Bytes)
    (addTs : γ → γ) (ident : DeviceIdentity) (now : String)
    (payload : SignedPayload γ) : SignedPayload γ :=
  let payload_copy := addTs payload.content
  let canonical := canon payload_copy
  let payloadHash := H canonical
  { content := payload_copy,
    signing := some {
      deviceId := ident.deviceId,
      publicKey := "ed25519:" ++ ident.public_key_hex,
      timestamp := now,
      payload_hash := some payloadHash,
      signatureStr := some ("ed25519:".toList ++ hexEncode (ident.sign payloadHash)) } }

/-- `verify_signature(payload, identity)`: returns `(is_valid, message)`,
never raising — the `bytes.fromhex` failure branch is the caught
exception path (`"Verification error: ..."`). -/
def verify_signature {γ : Type} (canon : γ → Bytes) (H : Bytes → Bytes)
    (ident : DeviceIdentity) (payload : SignedPayload γ) : Bool × String :=
  match payload.signing with
  | none => (false, "No signature present")
  | some signing_info =>
    let canonical := canon payload.content
    let computed_hash := H canonical
    if some computed_hash ≠ signing_info.payload_hash then
      (false, "Payload hash mismatch - data may have been tampered")
    else
      let signature_str := stripSigTag (signing_info.signatureStr.getD [])
      match hexDecode signature_str with
      | none => (false, "Verification error: invalid hex signature")
      | some signature =>
        if ident.verify computed_hash signature then (true, "Signature valid")
        else (false, "Signature invalid")

theorem stripSigTag_tagged (s : List Char) :
    stripSigTag ("ed25519:".toList ++ s) = s := by
  have h8 : ("ed25519:".toList).length = 8 := by decide
  unfold stripSigTag
  rw [show (8 : Nat) = ("ed25519:".toList).length from h8.symm,
    List.take_left, List.drop_left]
  simp

/-- **C1** Signing round trip: for every payload content `x`, verifying
`sign_payload x` succeeds (given that the device's Ed25519 keypair
accepts its own signature on the digest and signatures are byte strings);
and if the signed content is then mutated to any `y` whose canonical
digest differs (e.g. `fan.cfm` 250 → 251, no hash collision), the
verifier rejects with the hash-mismatch reason. -/
theorem sign_then_verify {γ : Type} (canon : γ → Bytes) (H : Bytes → Bytes)
    (addTs : γ → γ) (ident : DeviceIdentity) (now : String)
    (payload : SignedPayload γ)
    (hbytes : ∀ b ∈ ident.sign (H (canon (addTs payload.content))), b < 256)
    (hkey : ident.verify (H (canon (addTs payload.content)))
      (ident.sign (H (canon (addTs payload.content)))) = true) :
    verify_signature canon H ident
        (sign_payload canon H addTs ident now payload) =
      (true, "Signature valid")
    ∧ ∀ y : γ,
        H (canon y) ≠ H (canon (addTs payload.content)) →
        verify_signature canon H ident
            { content := y,
              signing := (sign_payload canon H addTs ident now payload).signing } =
          (false, "Payload hash mismatch - data may have been tampered") := by
  constructor
  · simp only [verify_signature, sign_payload, Option.getD_some, stripSigTag_tagged,
      hexDecode_hexEncode _ hbytes]
    simp [hkey]
  · intro y hy
    simp [verify_signature, sign_payload, hy]

/-- Closed instance of the C1 round trip at a concrete payload: content is
the `fan.cfm` value, canonicalization is the one-byte encoding, the hash
is the identity, and the identity's keypair is a checker that accepts its
own signatures.  Verifying the signed payload succeeds and mutating the
content from 250 to 251 yields the hash-mismatch rejection. -/
theorem sign_then_verify_witness :
    verify_signature (fun n : Nat => [n % 256]) (fun l => l)
        { deviceId := "btfi-test", public_key_hex := "aa",
          sign := fun _ => [7], verify := fun _ s => s = [7] }
        (sign_payload (fun n : Nat => [n % 256]) (fun l => l) (fun n => n)
          { deviceId := "btfi-test", public_key_hex := "aa",
            sign := fun _ => [7], verify := fun _ s => s = [7] }
          "2026-01-20T12:00:00Z" { content := 250, signing := none }) =
      (true, "Signature valid")
    ∧ verify_signature (fun n : Nat => [n % 256]) (fun l => l)
        { deviceId := "btfi-test", public_key_hex := "aa",
          sign := fun _ => [7], verify := fun _ s => s = [7] }
        { content := 251,
          signing := (sign_payload (fun n : Nat => [n % 256]) (fun l => l)
            (fun n => n)
            { deviceId := "btfi-test", public_key_hex := "aa",
              sign := fun _ => [7], verify := fun _ s => s = [7] }
            "2026-01-20T12:00:00Z" { content := 250, signing := none }).signing } =
      (false, "Payload hash mismatch - data may have been tampered") :=
  have h := sign_then_verify (fun n : Nat => [n % 256]) (fun l => l)
    (fun n => n)
    { deviceId := "btfi-test", public_key_hex := "aa",
      sign := fun _ => [7], verify := fun _ s => s = [7] }
    "2026-01-20T12:00:00Z" { content := 250, signing := none }
    (by decide) (by decide)
  ⟨h.1, h.2 251 (by decide)⟩

/- ============================================================
   verify_signature on arbitrary parsed-JSON dicts

   The typed `SignedPayload` view above represents only well-formed
   signing blocks.  `verify_signature`'s `try` covers only the
   `bytes.fromhex` / `identity.verify` step (signing.py lines 125-133);
   on an arbitrary input dict three operations before the `try` can
   raise uncaught:
   - `canonicalize_json(payload_copy)` (line 110): `TypeError` when the
     stripped content is not JSON-serializable;
   - `signing_info.get('payload_hash')` (line 114): `AttributeError`
     when the `_signing` value is not a dict;
   - `signature_str.startswith('ed25519:')` (line 122): `AttributeError`
     when the recorded `signature` value is present but not a string.
   The embedding below represents those inputs: the `_signing` value is
   absent, a non-dict, or a dict whose `signature` value may be a
   non-string; content canonicalization is partial; and the result is
   `Except`, whose `error` constructor is an uncaught Python exception.
   ============================================================ -/

/-- `TokenomicsConfig` with the dataclass defaults. -/
structure TokenomicsConfig where
  base_issuance_rate : ℚ := 0.001
  baseline_fan_efficiency : ℚ := 9.0
  ei_min : ℚ := 0.8
  ei_max : ℚ := 1.2
  eff_min_cfm_per_w : ℚ := 2.0
  eff_max_cfm_per_w : ℚ := 40.0
  cfm_min : ℚ := 50.0
  cfm_max : ℚ := 800.0
  voc_gating_enabled : Bool := true
  voc_min_ppm : ℚ := 0.01
  voc_max_ppm : ℚ := 2.0
  bcai_scalar : ℚ := 1.0
  pct_to_facilities : ℚ := 0.75
  pct_to_verifiers : ℚ := 0.05
  pct_to_treasury : ℚ := 0.10
  pct_to_team : ℚ := 0.10
  team_emission_cap_btfi : ℚ := 75000000
  events_per_epoch : ℕ := 5
  minutes_per_event : ℕ := 12
  samples_per_event : ℕ := 60
  sample_interval_seconds : ℕ := 12

/-- The default configuration (`TokenomicsConfig()`). -/
def defaultConfig : TokenomicsConfig := {}

/-- `IssuanceCalculator._calculate_ei`: returns
`(eef_vs_baseline, ei_clamped)`. -/
def calculate_ei (cfg : TokenomicsConfig) (efficiency_cfm_w : ℚ) : ℚ × ℚ :=
  if efficiency_cfm_w ≤ 0 then (0, cfg.ei_min)
  else
    let eef := efficiency_cfm_w / cfg.baseline_fan_efficiency
    (eef, max cfg.ei_min (min cfg.ei_max eef))

/-- `IssuanceSplit`. -/
structure IssuanceSplit where
  total_tokens : ℚ
  to_facilities : ℚ
  to_verifiers : ℚ
  to_treasury : ℚ
  to_team : ℚ
  team_cap_reached : Bool
deriving DecidableEq, Repr

/-- `IssuanceCalculator._calculate_split`: `team_tokens_issued` is the
calculator's running `_team_tokens_issued` total. -/
def calculate_split (cfg : TokenomicsConfig) (team_tokens_issued : ℚ)
    (total_tokens : ℚ) : IssuanceSplit :=
  let to_facilities := total_tokens * cfg.pct_to_facilities
  let to_verifiers := total_tokens * cfg.pct_to_verifiers
  let to_treasury := total_tokens * cfg.pct_to_treasury
  let to_team := total_tokens * cfg.pct_to_team
  if team_tokens_issued + to_team > cfg.team_emission_cap_btfi then
    let remaining_team_allowance :=
      max 0 (cfg.team_emission_cap_btfi - team_tokens_issued)
    let overflow := to_team - remaining_team_allowance
    { total_tokens := total_tokens,
      to_facilities := to_facilities,
      to_verifiers := to_verifiers,
      to_treasury := to_treasury + overflow,
      to_team := remaining_team_allowance,
      team_cap_reached := true }
  else
    { total_tokens := total_tokens,
      to_facilities := to_facilities,
      to_verifiers := to_verifiers,
      to_treasury := to_treasury,
      to_team := to_team,
      team_cap_reached := false }

/-- The fields of `EpochIssuance` populated by `calculate_from_summary`
(identifier strings and the sample-level fields it zeroes are omitted). -/
structure EpochIssuance where
  total_tar_cfm_min : ℚ
  avg_efficiency_cfm_w : ℚ
  eef_vs_baseline : ℚ
  ei_clamped : ℚ
  quality_factor : ℚ
  tokens_base : ℚ
  tokens_after_quality : ℚ
  tokens_issued : ℚ
  split : IssuanceSplit
deriving DecidableEq, Repr

/-- `IssuanceCalculator.calculate_from_summary`. -/
def calculate_from_summary (cfg : TokenomicsConfig) (team_tokens_issued : ℚ)
    (total_tar_cfm_min : ℚ) (avg_efficiency_cfm_w : ℚ)
    (quality_factor : ℚ) : EpochIssuance :=
  let ei := calculate_ei cfg avg_efficiency_cfm_w
  let tokens_base := cfg.base_issuance_rate * ei.2 * total_tar_cfm_min
  let tokens_after_quality := tokens_base * quality_factor
  let tokens_issued := tokens_after_quality / cfg.bcai_scalar
  { total_tar_cfm_min := total_tar_cfm_min,
    avg_efficiency_cfm_w := avg_efficiency_cfm_w,
    eef_vs_baseline := ei.1,
    ei_clamped := ei.2,
    quality_factor := quality_factor,
    tokens_base := tokens_base,
    tokens_after_quality := tokens_after_quality,
    tokens_issued := tokens_issued,
    split := calculate_split cfg team_tokens_issued tokens_issued }

/-- **C3** Reference scenario: with the default configuration,
`calculate_from_summary` on `total_tar_cfm_min = 21540`,
`avg_efficiency_cfm_w = 3.78`, `quality_factor = 1.0` yields
`ei_clamped = clamp(3.78/9.0, 0.8, 1.2) = 0.8`,
`tokens_issued = 0.001 × 0.8 × 21540 × 1.0 / 1.0 = 17.232`, and splits
facilities `12.924`, verifiers `0.8616`, treasury `1.7232`,
team `1.7232`. -/
theorem issuance_reference_case :
    (calculate_from_summary defaultConfig 0 21540 3.78 1).ei_clamped =
        max 0.8 (min 1.2 (3.78 / 9.0))
    ∧ (calculate_from_summary defaultConfig 0 21540 3.78 1).ei_clamped = 0.8
    ∧ (calculate_from_summary defaultConfig 0 21540 3.78 1).tokens_issued =
        0.001 * 0.8 * 21540 * 1.0 / 1.0
    ∧ (calculate_from_summary defaultConfig 0 21540 3.78 1).tokens_issued =
        17.232
    ∧ (calculate_from_summary defaultConfig 0 21540 3.78 1).split.to_facilities =
        12.924
    ∧ (calculate_from_summary defaultConfig 0 21540 3.78 1).split.to_verifiers =
        0.8616
    ∧ (calculate_from_summary defaultConfig 0 21540 3.78 1).split.to_treasury =
        1.7232
    ∧ (calculate_from_summary defaultConfig 0 21540 3.78 1).split.to_team =
        1.7232 := by
  refine ⟨?_, ?_, ?_, ?_, ?_, ?_, ?_, ?_⟩ <;>
    norm_num [calculate_from_summary, calculate_ei, calculate_split,
      defaultConfig]

/-- **C4** For every configuration whose four split fractions sum to 1
(the code validates this at config load), every running team total and
every epoch, the four split shares of `calculate_from_summary` sum
exactly to `tokens_issued` — in particular to 6 decimal places — in both
the capped branch (team overflow redirected to treasury) and the
uncapped branch. -/
theorem split_sums_to_tokens_issued (cfg : TokenomicsConfig)
    (team_tokens_issued total_tar avg_eff quality : ℚ)
    (hsum : cfg.pct_to_facilities + cfg.pct_to_verifiers +
      cfg.pct_to_treasury + cfg.pct_to_team = 1) :
    (calculate_from_summary cfg team_tokens_issued total_tar avg_eff
        quality).split.to_facilities +
      (calculate_from_summary cfg team_tokens_issued total_tar avg_eff
        quality).split.to_verifiers +
      (calculate_from_summary cfg team_tokens_issued total_tar avg_eff
        quality).split.to_treasury +
      (calculate_from_summary cfg team_tokens_issued total_tar avg_eff
        quality).split.to_team =
    (calculate_from_summary cfg team_tokens_issued total_tar avg_eff
      quality).tokens_issued := by
  simp only [calculate_from_summary, calculate_split]
  split
  · simp only
    linear_combination
      (cfg.base_issuance_rate * (calculate_ei cfg avg_eff).2 * total_tar *
        quality / cfg.bcai_scalar) * hsum
  · simp only
    linear_combination
      (cfg.base_issuance_rate * (calculate_ei cfg avg_eff).2 * total_tar *
        quality / cfg.bcai_scalar) * hsum

/-- Closed instance of C4 in the capped branch: with the default
configuration and the running team total already at the 75M cap, the
reference epoch's shares (team share truncated to 0, overflow moved to
treasury) still sum to `tokens_issued`. -/
theorem split_sums_witness :
    (defaultConfig.pct_to_facilities + defaultConfig.pct_to_verifiers +
      defaultConfig.pct_to_treasury + defaultConfig.pct_to_team = 1)
    ∧ (calculate_from_summary defaultConfig 75000000 21540 3.78
          1).split.team_cap_reached = true
    ∧ (calculate_from_summary defaultConfig 75000000 21540 3.78
          1).split.to_facilities +
        (calculate_from_summary defaultConfig 75000000 21540 3.78
          1).split.to_verifiers +
        (calculate_from_summary defaultConfig 75000000 21540 3.78
          1).split.to_treasury +
        (calculate_from_summary defaultConfig 75000000 21540 3.78
          1).split.to_team =
      (calculate_from_summary defaultConfig 75000000 21540 3.78
        1).tokens_issued :=
  ⟨by norm_num [defaultConfig],
   by norm_num [calculate_from_summary, calculate_ei, calculate_split,
     defaultConfig],
   split_sums_to_tokens_issued defaultConfig 75000000 21540 3.78 1
     (by norm_num [defaultConfig])⟩

/- ============================================================
   Baseline statistics (security/anomaly.py, BaselineStats)

   Welford's online algorithm over exact rationals.  Python's
   `float('inf')` / `float('-inf')` initial extrema are modelled as the
   top of `WithTop ℚ` and the bottom of `WithBot ℚ`, which behave the
   same way under `min` / `max`.
   ============================================================ -/

/-- `BaselineStats` dataclass fields. -/
structure BaselineStats where
  count : ℕ
  mean : ℚ
  m2 : ℚ
  min_val : WithTop ℚ
  max_val : WithBot ℚ
deriving DecidableEq

/-- The dataclass defaults: `count=0, mean=0.0, m2=0.0,
min_val=inf, max_val=-inf`. -/
def BaselineStats.initial : BaselineStats :=
  { count := 0, mean := 0, m2 := 0, min_val := ⊤, max_val := ⊥ }

/-- `BaselineStats.update` (Welford's algorithm). -/
def BaselineStats.update (s : BaselineStats) (value : ℚ) : BaselineStats :=
  let count := s.count + 1
  let delta := value - s.mean
  let mean := s.mean + delta / count
  let delta2 := value - mean
  { count := count,
    mean := mean,
    m2 := s.m2 + delta * delta2,
    min_val := min s.min_val (value : WithTop ℚ),
    max_val := max s.max_val (value : WithBot ℚ) }

/-- `BaselineStats.variance` property: `0` below two samples, else
`m2 / (count - 1)`. -/
def BaselineStats.variance (s : BaselineStats) : ℚ :=
  if s.count < 2 then 0 else s.m2 / ((s.count : ℚ) - 1)

/-- Sum of squares of a list. -/
def sumSq (l : List ℚ) : ℚ := (l.map fun x => x ^ 2).sum

theorem sumSq_concat (l : List ℚ) (v : ℚ) :
    sumSq (l ++ [v]) = sumSq l + v ^ 2 := by
  simp [sumSq]

theorem minimum_concat (l : List ℚ) (v : ℚ) :
    (l ++ [v]).minimum = min l.minimum (v : WithTop ℚ) := by
  induction l with
  | nil => simp [List.minimum_cons]
  | cons a l ih =>
    simp only [List.cons_append, List.minimum_cons, ih, min_assoc]

theorem maximum_concat (l : List ℚ) (v : ℚ) :
    (l ++ [v]).maximum = max l.maximum (v : WithBot ℚ) := by
  induction l with
  | nil => simp [List.maximum_cons]
  | cons a l ih =>
    simp only [List.cons_append, List.maximum_cons, ih, max_assoc]

theorem sum_sq_sub (l : List ℚ) (a : ℚ) :
    (l.map fun x => (x - a) ^ 2).sum =
      sumSq l - 2 * a * l.sum + l.length * a ^ 2 := by
  induction l with
  | nil => simp [sumSq]
  | cons x l ih =>
    simp only [List.map_cons, List.sum_cons, ih, sumSq, List.length_cons]
    push_cast
    ring

/-- Characterization of the Welford fold: after feeding any list, `count`
is the number of values, `mean` is `sum/length`, `m2` is
`sumSq - sum²/length`, and the extrema are the list minimum/maximum.
(For the empty list each division is `0/0 = 0` in `ℚ`, matching the
initial state.) -/
theorem welford_fold_char (l : List ℚ) :
    (l.foldl BaselineStats.update BaselineStats.initial).count = l.length
    ∧ (l.foldl BaselineStats.update BaselineStats.initial).mean =
        l.sum / l.length
    ∧ (l.foldl BaselineStats.update BaselineStats.initial).m2 =
        sumSq l - l.sum ^ 2 / l.length
    ∧ (l.foldl BaselineStats.update BaselineStats.initial).min_val =
        l.minimum
    ∧ (l.foldl BaselineStats.update BaselineStats.initial).max_val =
        l.maximum := by
  induction l using List.reverseRecOn with
  | nil =>
    refine ⟨rfl, by simp [BaselineStats.initial], by simp [BaselineStats.initial, sumSq], rfl, rfl⟩
  | append_singleton l v ih =>
    obtain ⟨hcount, hmean, hm2, hmin, hmax⟩ := ih
    simp only [List.foldl_append, List.foldl_cons, List.foldl_nil]
    rcases List.eq_nil_or_concat' l with hnil | _
    · subst hnil
      refine ⟨rfl, ?_, ?_, ?_, ?_⟩
      · simp [BaselineStats.update, BaselineStats.initial]
      · simp [BaselineStats.update, BaselineStats.initial, sumSq]
      · simp [BaselineStats.update, BaselineStats.initial, List.minimum_cons]
      · simp [BaselineStats.update, BaselineStats.initial, List.maximum_cons]
    · have hne : l ≠ [] := by rintro rfl; simp_all
      have hlen : (1 : ℚ) ≤ (l.length : ℚ) := by
        have : 1 ≤ l.length := List.length_pos.mpr hne
        exact_mod_cast this
      have hlen0 : (l.length : ℚ) ≠ 0 := by linarith
      have hlen1 : ((l.length : ℚ) + 1) ≠ 0 := by linarith
      refine ⟨?_, ?_, ?_, ?_, ?_⟩
      · simp [BaselineStats.update, hcount]
      · simp only [BaselineStats.update, hcount, hmean, List.sum_append,
          List.length_append, List.sum_cons, List.sum_nil, List.length_cons,
          List.length_nil]
        push_cast
        field_simp
        ring
      · simp only [BaselineStats.update, hcount, hmean, hm2, sumSq_concat,
          List.sum_append, List.length_append, List.sum_cons, List.sum_nil,
          List.length_cons, List.length_nil]
        push_cast
        field_simp
        ring
      · simp [BaselineStats.update, hmin, minimum_concat]
      · simp [BaselineStats.update, hmax, maximum_concat]

/-- **C9** For every finite sequence of values fed to
`BaselineStats.update` starting from the defaults: `count` is the number
of values fed; for a non-empty sequence `mean` is their exact arithmetic
mean; `m2` equals the exact sum of squared deviations from the mean, so
with at least two values `variance = m2/(count-1)` is the exact sample
variance; and `min_val` / `max_val` are the minimum and maximum of the
values fed (the Welford recurrence agrees with the direct definitions
over `ℚ`). -/
theorem welford_stats (l : List ℚ) :
    (l.foldl BaselineStats.update BaselineStats.initial).count = l.length
    ∧ (l ≠ [] →
        (l.foldl BaselineStats.update BaselineStats.initial).mean =
          l.sum / l.length)
    ∧ (l.foldl BaselineStats.update BaselineStats.initial).m2 =
        (l.map fun x => (x - l.sum / l.length) ^ 2).sum
    ∧ (2 ≤ l.length →
        (l.foldl BaselineStats.update BaselineStats.initial).variance =
          (l.map fun x => (x - l.sum / l.length) ^ 2).sum /
            ((l.length : ℚ) - 1))
    ∧ (l.foldl BaselineStats.update BaselineStats.initial).min_val = l.minimum
    ∧ (l.foldl BaselineStats.update BaselineStats.initial).max_val =
        l.maximum := by
  obtain ⟨hcount, hmean, hm2, hmin, hmax⟩ := welford_fold_char l
  have hdev : (l.map fun x => (x - l.sum / l.length) ^ 2).sum =
      sumSq l - l.sum ^ 2 / l.length := by
    rcases List.eq_nil_or_concat' l with hnil | _
    · subst hnil; simp [sumSq]
    · have hne : l ≠ [] := by rintro rfl; simp_all
      have hlen0 : (l.length : ℚ) ≠ 0 := by
        have : 0 < l.length := List.length_pos.mpr hne
        positivity
      rw [sum_sq_sub]
      field_simp
      ring
  refine ⟨hcount, fun _ => hmean, by rw [hm2, ← hdev], ?_, hmin, hmax⟩
  intro h2
  have hnotlt :
      ¬ (l.foldl BaselineStats.update BaselineStats.initial).count < 2 := by
    rw [hcount]; omega
  rw [BaselineStats.variance, if_neg hnotlt, hcount, hm2, ← hdev]

/-- Closed instance of C9 on the sequence `[2, 4]`: count 2, mean 3,
sample variance 2, minimum 2, maximum 4. -/
theorem welford_stats_witness :
    (([2, 4] : List ℚ) ≠ [] ∧ 2 ≤ ([2, 4] : List ℚ).length)
    ∧ (([2, 4] : List ℚ).foldl BaselineStats.update
        BaselineStats.initial).mean = ([2, 4] : List ℚ).sum / 2
    ∧ (([2, 4] : List ℚ).foldl BaselineStats.update
        BaselineStats.initial).variance =
      (([2, 4] : List ℚ).map fun x =>
        (x - ([2, 4] : List ℚ).sum / ([2, 4] : List ℚ).length) ^ 2).sum /
        ((([2, 4] : List ℚ).length : ℚ) - 1) :=
  ⟨⟨by simp, by simp⟩,
   by simpa using (welford_stats [2, 4]).2.1 (by simp),
   (welford_stats [2, 4]).2.2.2.1 (by simp)⟩

/- ============================================================
   Verifier uplink offline buffers (network/verifier_client.py)

   The SQLite `pending_samples` / `pending_epochs` tables are lists in
   autoincrement-id (insertion) order; `samples_pending` as reported by
   `get_status` is the refreshed `COUNT(*)` of the table.
   ============================================================ -/

def MAX_BUFFERED_SAMPLES : ℕ := 10000

def MAX_BUFFERED_EPOCHS : ℕ := 100

/-- `VerifierClient._buffer_sample`: if the table already holds at least
`MAX_BUFFERED_SAMPLES` rows, delete the `count - MAX + 1` oldest rows,
then insert the new sample at the end. -/
def buffer_sample {α : Type} (buf : List α) (s : α) : List α :=
  let count := buf.length
  (if MAX_BUFFERED_SAMPLES ≤ count then
    buf.drop (count - MAX_BUFFERED_SAMPLES + 1)
  else buf) ++ [s]

/-- `VerifierClient._buffer_epoch`: `INSERT OR REPLACE` keyed by
`epoch_id` deletes any row with the same id and appends a fresh row (a
replaced row gets a new autoincrement id, so it moves to the end).
Epochs are modelled by their id.  NOTE: unlike `_buffer_sample`, the code
performs no size check here — `MAX_BUFFERED_EPOCHS` is never read. -/
def buffer_epoch (buf : List ℕ) (epoch_id : ℕ) : List ℕ :=
  (buf.filter fun x => x ≠ epoch_id) ++ [epoch_id]

/-- The observable state of `send_sample` while the verifier is
unreachable: the pending-samples table and `samples_sent_total`. -/
structure OfflineSyncState (α : Type) where
  pending_samples : List α
  samples_sent_total : ℕ

/-- `VerifierClient.send_sample` when every POST fails (uplink offline):
`_post_sample` returns `False`, so the sample is buffered and
`samples_sent_total` is untouched. -/
def send_sample_offline {α : Type} (st : OfflineSyncState α) (s : α) :
    OfflineSyncState α :=
  { pending_samples := buffer_sample st.pending_samples s,
    samples_sent_total := st.samples_sent_total }

theorem send_sample_offline_sent_total {α : Type} (samples : List α)
    (st : OfflineSyncState α) :
    (samples.foldl send_sample_offline st).samples_sent_total =
      st.samples_sent_total := by
  induction samples generalizing st with
  | nil => rfl
  | cons s rest ih => simpa [send_sample_offline] using ih _

theorem buffer_sample_fold {α : Type} (samples : List α) :
    (samples.foldl send_sample_offline
        { pending_samples := [], samples_sent_total := 0 }).pending_samples =
      samples.drop (samples.length - MAX_BUFFERED_SAMPLES) := by
  have hM : MAX_BUFFERED_SAMPLES = 10000 := rfl
  induction samples using List.reverseRecOn with
  | nil => simp
  | append_singleton l v ih =>
    simp only [List.foldl_append, List.foldl_cons, List.foldl_nil,
      send_sample_offline, ih, buffer_sample]
    by_cases hcap : MAX_BUFFERED_SAMPLES ≤ l.length
    · have hlen : (l.drop (l.length - MAX_BUFFERED_SAMPLES)).length =
          MAX_BUFFERED_SAMPLES := by
        rw [List.length_drop]; omega
      rw [hlen, if_pos (le_refl MAX_BUFFERED_SAMPLES), Nat.sub_self,
        Nat.zero_add, List.drop_drop, List.length_append, List.length_cons,
        List.length_nil, List.drop_append_of_le_length (by omega)]
      exact congrArg (fun k => l.drop k ++ [v]) (by omega)
    · have hzero : l.length - MAX_BUFFERED_SAMPLES = 0 := by omega
      rw [hzero, List.drop_zero, if_neg (by omega :
          ¬ MAX_BUFFERED_SAMPLES ≤ l.length), List.length_append,
        List.length_cons, List.length_nil,
        show l.length + (0 + 1) - MAX_BUFFERED_SAMPLES = 0 from by omega,
        List.drop_zero]

/-- **C6** After `N` samples are enqueued through `send_sample` while
every POST fails, the refreshed `samples_pending` count equals
`min(N, MAX_BUFFERED_SAMPLES)`, `samples_sent_total` is `0`, and the
buffer holds exactly the newest `min(N, MAX)` samples — the oldest were
the ones dropped on overflow. -/
theorem offline_buffering_caps {α : Type} (samples : List α) :
    (samples.foldl send_sample_offline
        { pending_samples := [], samples_sent_total := 0 }).pending_samples.length =
      min samples.length MAX_BUFFERED_SAMPLES
    ∧ (samples.foldl send_sample_offline
        { pending_samples := [], samples_sent_total := 0 }).samples_sent_total = 0
    ∧ (samples.foldl send_sample_offline
        { pending_samples := [], samples_sent_total := 0 }).pending_samples =
      samples.drop (samples.length - MAX_BUFFERED_SAMPLES) := by
  refine ⟨?_, send_sample_offline_sent_total samples _, buffer_sample_fold samples⟩
  rw [buffer_sample_fold samples, List.length_drop]
  omega

/-- **C5** (evaluation at the failing input) Buffering
`MAX_BUFFERED_EPOCHS + 1 = 101` epochs with distinct `epoch_id`s while
offline leaves all 101 of them pending: `_buffer_epoch` has no eviction
logic, so the epoch buffer exceeds the declared cap, contradicting the
claim that the oldest epochs are dropped to keep at most 100. -/
theorem epoch_buffer_exceeds_cap :
    MAX_BUFFERED_EPOCHS <
      ((List.range (MAX_BUFFERED_EPOCHS + 1)).foldl buffer_epoch []).length
    ∧ MAX_BUFFERED_EPOCHS = 100 := by
  have hfold : ∀ n : ℕ, (List.range n).foldl buffer_epoch [] = List.range n := by
    intro n
    induction n with
    | zero => rfl
    | succ n ih =>
      rw [List.range_succ, List.foldl_append, ih, List.foldl_cons,
        List.foldl_nil, buffer_epoch, List.filter_eq_self.mpr]
      intro a ha
      simp only [decide_eq_true_eq]
      exact Nat.ne_of_lt (List.mem_range.mp ha)
  constructor
  · rw [hfold, List.length_range]
    omega
  · rfl

/- ============================================================
   Device identity (crypto/identity.py, DeviceIdentity._load_or_generate)
   ============================================================ -/

/-- `identity.json` content: `info.get('device_id')` may be absent. -/
structure IdentityFileRec where
  device_id : Option String
deriving DecidableEq, Repr

/-- Key material found on disk: the public key loaded from the PEM files
plus the optional `identity.json`. -/
structure DiskKeys where
  pk : Bytes
  identity_info : Option IdentityFileRec
deriving DecidableEq, Repr

/-- `DeviceIdentity._generate_device_id`:
`"btfi-" + sha256(public_key_raw)[:8].hex()`. -/
def generate_device_id (H : Bytes → Bytes) (pk : Bytes) : String :=
  "btfi-" ++ String.mk (hexEncode ((H pk).take 8))

/-- The identity state produced by `_load_or_generate`. -/
structure LoadedIdentity where
  pk : Bytes
  device_id : Option String
deriving DecidableEq, Repr

/-- `DeviceIdentity._load_or_generate`: when key files exist on disk the
keys are loaded and `_device_id` is overwritten with whatever
`identity.json` records (or left as the constructor argument when
`identity.json` is missing); no comparison against the derivation from
the loaded public key is ever made.  When no key files exist, fresh keys
are generated and the device id is the constructor argument if provided,
else the derivation from the new public key. -/
def load_or_generate (H : Bytes → Bytes) (arg_device_id : Option String)
    (disk : Option DiskKeys) (fresh_pk : Bytes) : LoadedIdentity :=
  match disk with
  | some d =>
    match d.identity_info with
    | some info => { pk := d.pk, device_id := info.device_id }
    | none => { pk := d.pk, device_id := arg_device_id }
  | none =>
    { pk := fresh_pk,
      device_id :=
        match arg_device_id with
        | some s => some s
        | none => some (generate_device_id H fresh_pk) }

/-- **C7 counterexample** A run that loads key material from disk whose
`identity.json` records `device_id = "btfi-wrong"` completes normally
with that device id, even though it differs from the derivation
`"btfi-" + hex(sha256(pk)[:8])` — the mismatch is neither checked nor
fatal, refuting the claim. -/
theorem device_id_mismatch_not_fatal :
    (load_or_generate (fun _ => List.replicate 32 0) none
        (some { pk := [1],
                identity_info := some { device_id := some "btfi-wrong" } })
        [1]).device_id = some "btfi-wrong"
    ∧ "btfi-wrong" ≠ generate_device_id (fun _ => List.replicate 32 0) [1] :=
  ⟨rfl, by decide⟩

/-- **C7 amended** On a first run with no explicit device-id argument,
`device_id` equals `"btfi-" + hex(sha256(public_key_raw)[:8])` derived
from the freshly generated key.  On runs that load key material from
disk, `device_id` is taken verbatim from `identity.json` (or retains the
constructor argument when `identity.json` is missing); no consistency
check against the derivation from the loaded public key is performed,
so a mismatching persisted id is silently adopted. -/
theorem load_or_generate_device_id (H : Bytes → Bytes) (fresh_pk : Bytes) :
    (load_or_generate H none none fresh_pk).device_id =
      some (generate_device_id H fresh_pk)
    ∧ (∀ (argid : Option String) (d_pk : Bytes) (info : IdentityFileRec),
        (load_or_generate H argid
            (some { pk := d_pk, identity_info := some info })
            fresh_pk).device_id = info.device_id)
    ∧ (∀ (argid : Option String) (d_pk : Bytes),
        (load_or_generate H argid
            (some { pk := d_pk, identity_info := none })
            fresh_pk).device_id = argid) :=
  ⟨rfl, fun _ _ _ => rfl, fun _ _ => rfl⟩

/- ============================================================
   Anomaly timestamp check (security/anomaly.py,
   AnomalyDetector._check_timestamp)
   ============================================================ -/

inductive AnomalyType where
  | out_of_range | impossible_value | flatline | sudden_jump
  | timestamp_violation | replay_attack | cross_sensor_mismatch
  | baseline_drift
deriving DecidableEq, Repr

inductive AnomalySeverity where
  | info | warning | critical
deriving DecidableEq, Repr

/-- The fields of an `AnomalyReport` relevant to the detection rules
(value/message strings carry no further logic). -/
structure AnomalyReport where
  anomaly_type : AnomalyType
  severity : AnomalySeverity
  fieldName : String
deriving DecidableEq, Repr

/-- The `"timestamp"` entry of a sample: absent, unparseable
(`datetime.fromisoformat` raises), or a parsed instant (timestamps are
totally ordered; modelled as `ℤ`). -/
inductive TimestampField where
  | absent
  | malformed
  | valid (t : ℤ)

/-- `AnomalyDetector._check_timestamp`, with the `_last_timestamp`
watermark passed in and returned: a parsed timestamp `≤` the watermark
yields a critical Timestamp-violation report (and the watermark is NOT
advanced); a strictly greater one yields no report and advances the
watermark; a missing timestamp is skipped; a parse failure yields a
warning-severity report.  `check_sample` appends the returned report
exactly once, so `some`/`none` is exactly-one/zero reports. -/
def check_timestamp (last_timestamp : Option ℤ) :
    TimestampField → Option AnomalyReport × Option ℤ
  | .absent => (none, last_timestamp)
  | .malformed =>
    (some { anomaly_type := .timestamp_violation, severity := .warning,
            fieldName := "timestamp" }, last_timestamp)
  | .valid t =>
    match last_timestamp with
    | some w =>
      if t ≤ w then
        (some { anomaly_type := .timestamp_violation, severity := .critical,
                fieldName := "timestamp" }, last_timestamp)
      else (none, some t)
    | none => (none, some t)

/-- **C8** Once a watermark is set, a sample whose timestamp equals the
watermark produces exactly one Timestamp-violation report with severity
Critical, and a sample whose timestamp is strictly greater produces no
Timestamp-violation report. -/
theorem timestamp_watermark (w : ℤ) :
    (check_timestamp (some w) (.valid w)).1 =
      some { anomaly_type := .timestamp_violation, severity := .critical,
             fieldName := "timestamp" }
    ∧ ∀ t : ℤ, w < t → (check_timestamp (some w) (.valid t)).1 = none :=
  ⟨by simp [check_timestamp],
   fun t ht => by simp [check_timestamp, not_le.mpr ht]⟩

/-- Closed instance of C8 at watermark 5: timestamp 5 fires the critical
violation, timestamp 6 does not. -/
theorem timestamp_watermark_witness :
    (5 : ℤ) < 6
    ∧ (check_timestamp (some 5) (.valid 6)).1 = none
    ∧ (check_timestamp (some 5) (.valid 5)).1 =
      some { anomaly_type := .timestamp_violation, severity := .critical,
             fieldName := "timestamp" } :=
  ⟨by norm_num, (timestamp_watermark 5).2 6 (by norm_num),
   (timestamp_watermark 5).1⟩

end BeautiFi
